import Mathlib

/-!
Shallow embedding of the device-orchestration core of the
sx1262-rp2040-embassy firmware (src/device/mod.rs, src/radio/lora_radio.rs,
src/sensor/{system_sensor,soil_sensor,air_sensor}.rs, src/storage/mod.rs).

External I/O (radio responses, storage put results, I2C bus writes, ADC
reads) is passed in explicitly as oracle arguments; a Rust panic
(`todo!()` / `.unwrap()` failure) is modelled as `Option.none` at the
outermost layer of the function that can panic. Byte values are `Nat`
(each < 256 where the source has `u8`).
-/

/-- Storage key tags, from `Key` in src/storage/mod.rs. -/
inductive Key where
  | AppSKey
  | NewSKey
  | DevAddr
deriving DecidableEq, Repr

/-- Model of `From<&Key> for [u8; 1]` in src/storage/mod.rs. -/
def Key.tag : Key → Nat
  | .AppSKey => 0x00
  | .NewSKey => 0x01
  | .DevAddr => 0x02

/-- The key-value store state: each key maps to at most one byte-array
value (absent = `none`), matching the ekv-backed `Storage` contract. -/
def Store : Type := Key → Option (List Nat)

/-- Model of `Storage::put` on the store state: overwrites the key wholesale. -/
def Store.put (s : Store) (k : Key) (v : List Nat) : Store :=
  fun k2 => if k2 = k then some v else s k2

/-- Model of `Storage::get` on the store state. -/
def Store.get (s : Store) (k : Key) : Option (List Nat) :=
  s k

/-- The session triple returned by `Device::get_session_keys`
(network session key, application session key, device address). -/
structure SessionKeys where
  newskey : List Nat
  appskey : List Nat
  devaddr : List Nat
deriving DecidableEq, Repr

/-- Storage-level errors, from `FlashStorageError` in
src/storage/flash_storage.rs (the wrapped ekv error payloads are not
needed by any claim). -/
inductive FlashStorageError where
  | Mount
  | Format
  | Write
  | Commit
deriving DecidableEq, Repr

/-- Device-level errors, from `DeviceError` in src/device/mod.rs. -/
inductive DeviceError where
  | Auth
  | AuthFailed
  | AuthJoinAttemptsExhausted
  | SessionExpired
  | NoAck
  | Duty
  | Send
  | Storage (e : FlashStorageError)
deriving DecidableEq, Repr

/-- Orchestrator states, from `State` in src/device/mod.rs. -/
inductive State where
  | Boot
  | Auth
  | Duty
  | Send
  | Idle (secs : Nat)
deriving DecidableEq, Repr

/-- The transition function of `Device::run` (src/device/mod.rs:86-115):
given the current state and the result of that state's operation, the
next state assigned to `self.state`. The `Idle` arm sleeps and then
moves to `Auth` unconditionally. -/
def nextState : State → Except DeviceError Unit → State
  | .Boot, .ok _ => .Auth
  | .Boot, .error _ => .Idle (60 * 60)
  | .Auth, .ok _ => .Duty
  | .Auth, .error .AuthFailed => .Auth
  | .Auth, .error _ => .Idle (60 * 60)
  | .Duty, .ok _ => .Send
  | .Duty, .error _ => .Idle (60 * 60)
  | .Send, .ok _ => .Duty
  | .Send, .error .NoAck => .Duty
  | .Send, .error .SessionExpired => .Auth
  | .Send, .error _ => .Idle (60 * 60)
  | .Idle _, _ => .Auth

/-- Model of `Device::get_session_keys` (src/device/mod.rs:232-261): reads the
three session parts and yields the triple only when all three `get`
calls return a value. -/
def get_session_keys (s : Store) : Option SessionKeys :=
  let apps_key := s.get .AppSKey
  let news_key := s.get .NewSKey
  let dev_addr := s.get .DevAddr
  match news_key, apps_key, dev_addr with
  | some n, some a, some d => some ⟨n, a, d⟩
  | _, _, _ => none

/-- Model of `Device::persist_session_keys` (src/device/mod.rs:263-288): writes
NewSKey, then AppSKey, then DevAddr; the first failing `put` aborts with
`DeviceError::Storage`. The `put` oracle gives each write's outcome. -/
def persist_session_keys (put : Key → List Nat → Except FlashStorageError Unit)
    (keys : SessionKeys) : Except DeviceError Unit :=
  match put .NewSKey keys.newskey with
  | .error e => .error (.Storage e)
  | .ok _ =>
    match put .AppSKey keys.appskey with
    | .error e => .error (.Storage e)
    | .ok _ =>
      match put .DevAddr keys.devaddr with
      | .error e => .error (.Storage e)
      | .ok _ => .ok ()

/-- Radio-level errors, from `LoraRadioError` in src/radio/lora_radio.rs
(the wrapped lorawan-device error payload is not needed by any claim). -/
inductive LoraRadioError where
  | NoJoinAccept
  | NoAck
  | SessionExpired
  | LoRaWAN
deriving DecidableEq, Repr

/-- Model of `Device::auth` (src/device/mod.rs:149-204). `joinRes` is the radio's
response to the single `join` call this invocation makes (ABP when a
persisted session is present, OTAA otherwise); `put` is the storage
write oracle used by `persist_session_keys`; `attempt` is
`self.auth_attempt` (a `u8`; the guard keeps it at most 10, so plain
`Nat` increment is exact). The result pairs the returned
`Result<(), DeviceError>` with the updated `auth_attempt`; `none`
models the `todo!()` panic reached when the join succeeded but
persisting the fresh session failed. -/
def Device.auth (store : Store) (joinRes : Except LoraRadioError SessionKeys)
    (put : Key → List Nat → Except FlashStorageError Unit) (attempt : Nat) :
    Option (Except DeviceError Unit × Nat) :=
  match get_session_keys store with
  | some _ =>
    match joinRes with
    | .ok _ => some (.ok (), attempt)
    | .error _ => some (.error .Auth, attempt)
  | none =>
    match joinRes with
    | .ok keys =>
      match persist_session_keys put keys with
      | .ok _ => some (.ok (), attempt)
      | .error _ => none
    | .error _ =>
      if attempt > 9 then
        some (.error .AuthJoinAttemptsExhausted, 0)
      else
        some (.error .AuthFailed, attempt + 1)

/-- Driver for the Auth claims: iterates the `Device::run` loop while it
sits in `Auth`, consuming one radio join response per iteration, and
records the successor state after every iteration. Stops when the loop
leaves `Auth` or the responses run out; `none` propagates the `todo!()`
panic from `Device.auth`. -/
def runAuthLoop (store : Store)
    (put : Key → List Nat → Except FlashStorageError Unit)
    (joins : List (Except LoraRadioError SessionKeys))
    (st : State) (attempt : Nat) : Option (State × Nat × List State) :=
  match joins with
  | [] => some (st, attempt, [])
  | j :: rest =>
    match st with
    | .Auth =>
      match Device.auth store j put attempt with
      | none => none
      | some (res, a2) =>
        let st2 := nextState .Auth res
        match runAuthLoop store put rest st2 a2 with
        | none => none
        | some (fin, afin, tr) => some (fin, afin, st2 :: tr)
    | s => some (s, attempt, [])

/-- The empty store: no session part is persisted, so `Device::auth`
takes the OTAA branch. -/
def emptyStore : Store := fun _ => none

/-- A storage write oracle in which every `put` succeeds. -/
def putOk : Key → List Nat → Except FlashStorageError Unit :=
  fun _ _ => .ok ()

/-- LoRaWAN MAC send responses, from `SendResponse` in the
lorawan-device crate as consumed by src/radio/lora_radio.rs. -/
inductive SendResponse where
  | DownlinkReceived (fcnt : Nat)
  | SessionExpired
  | NoAck
  | RxComplete
deriving DecidableEq, Repr

/-- Errors of the underlying lorawan-device MAC layer, kept abstract. -/
inductive LorawanMacError where
  | err
deriving DecidableEq, Repr

/-- The classification in `LoraRadio::uplink`
(src/radio/lora_radio.rs:86-95): `resp` is what `self.radio.send`
returned; a downlink carries the downlink frame counter, and both
`NoAck` and `RxComplete` are mapped to `LoraRadioError::NoAck`. -/
def LoraRadio.uplink (resp : Except LorawanMacError SendResponse) :
    Except LoraRadioError Nat :=
  match resp with
  | .ok (.DownlinkReceived fcnt_down) => .ok fcnt_down
  | .ok .SessionExpired => .error .SessionExpired
  | .ok .NoAck => .error .NoAck
  | .ok .RxComplete => .error .NoAck
  | .error _ => .error .LoRaWAN

/-- Model of `Device::uplink` (src/device/mod.rs:206-230): maps the radio result
to a `DeviceError`; any radio error other than `SessionExpired` and
`NoAck` becomes `DeviceError::Send`. -/
def Device.uplink (radioRes : Except LoraRadioError Nat) :
    Except DeviceError Unit :=
  match radioRes with
  | .ok _ => .ok ()
  | .error .SessionExpired => .error .SessionExpired
  | .error .NoAck => .error .NoAck
  | .error _ => .error .Send

/-- Identifier of each concrete sensor held by `Device`. -/
inductive SensorId where
  | system
  | soil
  | air
deriving DecidableEq, Repr

/-- Model of `Vec<u8, 33>`: the fixed capacity of `Device::data`
(src/device/mod.rs:60). -/
def DATA_CAPACITY : Nat := 33

/-- Model of `Vec::extend_from_slice` on the payload buffer: fails (and the
source's `.unwrap()` panics) when the appended record would exceed the
fixed capacity. -/
def extendFromSlice (buf rec : List Nat) : Option (List Nat) :=
  if buf.length + rec.length ≤ DATA_CAPACITY then some (buf ++ rec) else none

/-- Model of `Device::collect_data` (src/device/mod.rs:290-325). The three
arguments are the probe results the sensors would return if probed, in
the fixed source order system, soil, air (the soil sensor is powered on
before and off after its probe; the air sensor stays powered, see the
comment at src/device/mod.rs:311-314). Returns the
`Result<(), DeviceError>` together with the assembled buffer (`none`
models an `.unwrap()` panic on overflow), and the list of sensors
actually probed: the first failing probe returns `DeviceError::Duty`
immediately, so later sensors are not probed. -/
def collect_data (sysRes : Except Unit (List Nat))
    (soilRes : Except Unit (List Nat)) (airRes : Except Unit (List Nat)) :
    Option (Except DeviceError (List Nat)) × List SensorId :=
  match sysRes with
  | .error _ => (some (.error .Duty), [.system])
  | .ok r0 =>
    match extendFromSlice [] r0 with
    | none => (none, [.system])
    | some d0 =>
      match soilRes with
      | .error _ => (some (.error .Duty), [.system, .soil])
      | .ok r1 =>
        match extendFromSlice d0 r1 with
        | none => (none, [.system, .soil])
        | some d1 =>
          match airRes with
          | .error _ => (some (.error .Duty), [.system, .soil, .air])
          | .ok r2 =>
            match extendFromSlice d1 r2 with
            | none => (none, [.system, .soil, .air])
            | some d2 => (some (.ok d2), [.system, .soil, .air])

/-- Model of `SystemSensor::on` (src/sensor/system_sensor.rs:94-97): the board
has no software power control, so this is a trivial success with no
side effect. -/
def SystemSensor.on : Except Unit Unit := .ok ()

/-- Model of `SystemSensor::off` (src/sensor/system_sensor.rs:99-102): trivial
success, no side effect. -/
def SystemSensor.off : Except Unit Unit := .ok ()

/-- The soil sensor's state: the level of its power pin
(`SoilSensor.pwr`, src/sensor/soil_sensor.rs; `true` = high = powered). -/
structure SoilSensorState where
  pwr_high : Bool
deriving DecidableEq, Repr

/-- Pin side effects performed by the soil sensor's power methods. -/
inductive PinEvent where
  | setHigh
  | setLow
deriving DecidableEq, Repr

/-- Model of `SoilSensor::on` (src/sensor/soil_sensor.rs:31-37): drives the
power pin high only when it is low, then returns `Ok(())`. The result
triple is (returned result, new state, pin events performed). -/
def SoilSensor.on (s : SoilSensorState) :
    Except Unit Unit × SoilSensorState × List PinEvent :=
  if s.pwr_high = false then (.ok (), ⟨true⟩, [.setHigh])
  else (.ok (), s, [])

/-- Model of `SoilSensor::off` (src/sensor/soil_sensor.rs:39-45): drives the
power pin low only when it is high, then returns `Ok(())`. -/
def SoilSensor.off (s : SoilSensorState) :
    Except Unit Unit × SoilSensorState × List PinEvent :=
  if s.pwr_high = true then (.ok (), ⟨false⟩, [.setLow])
  else (.ok (), s, [])

/-- I2C bus errors, kept abstract (embassy's `i2c::Error`). -/
inductive I2cError where
  | err
deriving DecidableEq, Repr

/-- Model of `AirSensorError` (src/sensor/air_sensor.rs:17-20). -/
inductive AirSensorError where
  | I2C (e : I2cError)
deriving DecidableEq, Repr

/-- The SCD41 wake-up command word (src/sensor/air_sensor.rs:15). -/
def WAKE_UP : Nat := 0x36f6

/-- The SCD41 power-down command word (src/sensor/air_sensor.rs:14). -/
def POWER_DOWN : Nat := 0x36e0

/-- The air sensor's state: its `powered` flag
(src/sensor/air_sensor.rs:25; initialized `true` in `AirSensor::new`
and never written by any method). -/
structure AirSensorState where
  powered : Bool
deriving DecidableEq, Repr

/-- Model of `AirSensor::on` (src/sensor/air_sensor.rs:51-67): a no-op success
when `powered` is set; otherwise writes the WAKE_UP command on the I2C
bus (`bus` gives each write's outcome). The result triple is (returned
result, new state, command words written on the bus). Note the source
never updates `powered`. -/
def AirSensor.on (s : AirSensorState) (bus : Nat → Except I2cError Unit) :
    Except AirSensorError Unit × AirSensorState × List Nat :=
  if s.powered = true then (.ok (), s, [])
  else
    match bus WAKE_UP with
    | .error e => (.error (.I2C e), s, [WAKE_UP])
    | .ok _ => (.ok (), s, [WAKE_UP])

/-- Model of `AirSensor::off` (src/sensor/air_sensor.rs:69-82): a no-op success
when `powered` is clear; otherwise writes the POWER_DOWN command. Note
the source never updates `powered`. -/
def AirSensor.off (s : AirSensorState) (bus : Nat → Except I2cError Unit) :
    Except AirSensorError Unit × AirSensorState × List Nat :=
  if s.powered = false then (.ok (), s, [])
  else
    match bus POWER_DOWN with
    | .error e => (.error (.I2C e), s, [POWER_DOWN])
    | .ok _ => (.ok (), s, [POWER_DOWN])

/-- Truncation toward zero of a rational, the rounding Rust's
float-to-integer `as` casts use. -/
def truncQ (q : ℚ) : Int :=
  q.num.tdiv q.den

/-- Rust's saturating float-to-`i16` `as` cast (on a finite value),
over the rational model of the float. -/
def castToI16 (q : ℚ) : Int :=
  max (-32768) (min 32767 (truncQ q))

/-- Rust's saturating float-to-`u8` `as` cast (on a finite value),
over the rational model of the float. -/
def castToU8 (q : ℚ) : Nat :=
  (max 0 (min 255 (truncQ q))).toNat

/-- Model of `(temp * 10.0) as i16` from `AirSensor::probe`
(src/sensor/air_sensor.rs:134), with the `f32` product modelled over ℚ.
At the inputs of the claims this is exact: the nearest `f32` to 23.4 is
23.399999618…, whose `f32` product with 10 rounds to exactly 234.0, and
truncation gives 234 — the same value the rational product 234 gives. -/
def scaleTemp (temp : ℚ) : Int :=
  castToI16 (temp * 10)

/-- Model of `(hum * 2.0) as u8` from `AirSensor::probe`
(src/sensor/air_sensor.rs:135), with the `f32` product modelled over ℚ.
At 55.2 the `f32` computation yields 110.400001…, truncating to 110,
the same value the rational product 110.4 truncates to. -/
def scaleHum (hum : ℚ) : Nat :=
  castToU8 (hum * 2)

/-- The two's-complement `u16` image of an `i16` value, as a pair of
big-endian bytes: the source writes `(x >> 8) as u8` then `x as u8`,
which for any `i16` equals the big-endian bytes of `x mod 2^16`. -/
def i16BytesBE (x : Int) : List Nat :=
  let u := (x.emod 65536).toNat
  [u / 256, u % 256]

/-- Big-endian bytes of a `u16` value, as the source's
`(x >> 8) as u8` and `x as u8`. -/
def u16BytesBE (x : Nat) : List Nat :=
  [(x % 65536) / 256, x % 256]

/-- The 11-byte air-sensor record assembled by `AirSensor::probe`
(src/sensor/air_sensor.rs:139-152) from the already-scaled values:
channel 0x01 / type 0x67 then the temperature bytes, channel 0x01 /
type 0x68 then the humidity byte, channel 0x01 / type 0x65 then the
CO₂ bytes. -/
def airRecord (temp_scl : Int) (hum_scl : Nat) (co2 : Nat) : List Nat :=
  [0x01, 0x67] ++ i16BytesBE temp_scl ++
  [0x01, 0x68] ++ [hum_scl % 256] ++
  [0x01, 0x65] ++ u16BytesBE co2

/-- The value part of `AirSensor::probe` from physical measurements
(temperature in °C, relative humidity in %, CO₂ in ppm): scale per the
source and assemble the record. -/
def airProbeRecord (temp hum : ℚ) (co2 : Nat) : List Nat :=
  airRecord (scaleTemp temp) (scaleHum hum) co2

/-- A deterministic join failure response (no join-accept received). -/
def joinFail : Except LoraRadioError SessionKeys := .error .NoJoinAccept

/-- Concrete session keys of the persisted layout's sizes (16, 16 and
4 bytes). -/
def sessionKeysA : SessionKeys :=
  ⟨List.replicate 16 0xAA, List.replicate 16 0xBB, List.replicate 4 0xCC⟩

/-- A successful join response carrying `sessionKeysA`. -/
def joinOk : Except LoraRadioError SessionKeys := .ok sessionKeysA

/-- A storage write oracle in which every `put` fails with an ekv write
error. -/
def putFailWrite : Key → List Nat → Except FlashStorageError Unit :=
  fun _ _ => .error .Write

/-- An OTAA join failure with the counter at most 9 stays in place:
`Device::auth` increments `auth_attempt` and returns `AuthFailed`. -/
theorem auth_otaa_fail_low (a : Nat) (h : a ≤ 9) :
    Device.auth emptyStore joinFail putOk a = some (.error .AuthFailed, a + 1) := by
  simp [Device.auth, get_session_keys, emptyStore, Store.get, joinFail, Nat.not_lt.mpr h]

/-- An OTAA join failure with the counter above 9 resets the counter
and returns `AuthJoinAttemptsExhausted`. -/
theorem auth_otaa_fail_high (a : Nat) (h : 9 < a) :
    Device.auth emptyStore joinFail putOk a
      = some (.error .AuthJoinAttemptsExhausted, 0) := by
  simp [Device.auth, get_session_keys, emptyStore, Store.get, joinFail, h]

/-- A successful OTAA join whose persist succeeds leaves the counter
unchanged. -/
theorem auth_otaa_ok (a : Nat) :
    Device.auth emptyStore joinOk putOk a = some (.ok (), a) := by
  simp [Device.auth, get_session_keys, emptyStore, Store.get, joinOk,
    persist_session_keys, putOk]

/-- Running the Auth loop through `n` consecutive OTAA join failures
(with the counter low enough that each stays below the threshold)
adds `n` to the counter, passes through `Auth` after each failure, and
continues with the remaining responses. -/
theorem runAuthLoop_consec_failures (n : Nat) :
    ∀ (a : Nat), a + n ≤ 10 →
    ∀ (rest : List (Except LoraRadioError SessionKeys)),
    runAuthLoop emptyStore putOk (List.replicate n joinFail ++ rest) .Auth a
      = Option.map (fun r => (r.1, r.2.1, List.replicate n State.Auth ++ r.2.2))
          (runAuthLoop emptyStore putOk rest .Auth (a + n)) := by
  induction n with
  | zero =>
    intro a _ rest
    simp only [List.replicate, List.nil_append, Nat.add_zero, List.replicate_zero]
    cases runAuthLoop emptyStore putOk rest .Auth a <;> simp
  | succ k ih =>
    intro a h rest
    have ha : a ≤ 9 := by omega
    have h2 : (a + 1) + k ≤ 10 := by omega
    have hsum : a + (k + 1) = (a + 1) + k := by omega
    rw [List.replicate_succ, List.cons_append, runAuthLoop,
      auth_otaa_fail_low a ha]
    simp only [nextState]
    rw [ih (a + 1) h2 rest, hsum]
    cases runAuthLoop emptyStore putOk rest .Auth (a + 1 + k) <;>
      simp [List.replicate_succ]

/-- A successful OTAA join response as the next Auth iteration's radio
result moves the loop to `Duty`, leaving the counter unchanged. -/
theorem runAuthLoop_ok_last (a : Nat) :
    runAuthLoop emptyStore putOk [joinOk] .Auth a
      = some (.Duty, a, [.Duty]) := by
  simp [runAuthLoop, auth_otaa_ok, nextState]

/-- Claim C1 counterexample: starting from a fresh Auth state
(`auth_attempt = 0`, no persisted session), after exactly 10
consecutive OTAA join failures the orchestrator is still in `Auth`
with the retry counter at 10 — it has not transitioned to `Idle` and
the counter has not reset to 0. (The source guard is
`self.auth_attempt > 9`, checked before the increment, so the
exhaustion branch fires only on the 11th consecutive failure.) -/
theorem C1_ten_failures_still_auth :
    runAuthLoop emptyStore putOk (List.replicate 10 joinFail) .Auth 0
      = some (.Auth, 10, List.replicate 10 .Auth) ∧
    (State.Auth ≠ State.Idle (60 * 60)) := by
  exact ⟨rfl, by decide⟩

/-- Claim C1 (amended): with no persisted session, a radio whose OTAA
join fails deterministically `n < 10` times and then succeeds drives
the orchestrator through exactly `n` in-place Auth retries (the state
after each failure is again `Auth`, the counter ends at `n`) and then
to `Duty`; and after exactly 11 consecutive join failures (not 10: the
`> 9` guard is checked before the increment) the orchestrator
transitions to `Idle` with the hour-long backoff and the retry counter
resets to 0 for the next Auth attempt. -/
theorem C1_join_retry_then_idle (n : Nat) (h : n < 10) :
    runAuthLoop emptyStore putOk (List.replicate n joinFail ++ [joinOk]) .Auth 0
      = some (.Duty, n, List.replicate n .Auth ++ [.Duty]) ∧
    runAuthLoop emptyStore putOk (List.replicate 11 joinFail) .Auth 0
      = some (.Idle (60 * 60), 0, List.replicate 10 .Auth ++ [.Idle (60 * 60)]) := by
  constructor
  · rw [runAuthLoop_consec_failures n 0 (by omega) [joinOk], Nat.zero_add,
      runAuthLoop_ok_last n]
    rfl
  · rfl

/-- Witness for C1 at `n = 3`: three failures then success yields three
Auth retries and then Duty. -/
theorem C1_join_retry_then_idle_witness :
    runAuthLoop emptyStore putOk (List.replicate 3 joinFail ++ [joinOk]) .Auth 0
      = some (.Duty, 3, List.replicate 3 .Auth ++ [.Duty]) ∧
    runAuthLoop emptyStore putOk (List.replicate 11 joinFail) .Auth 0
      = some (.Idle (60 * 60), 0, List.replicate 10 .Auth ++ [.Idle (60 * 60)]) :=
  C1_join_retry_then_idle 3 (by decide)

/-- Claim C2: session load reports a session as present iff all three
stored parts (network session key, application session key, device
address) are each returned by `get`; writing all three parts and then
loading returns exactly that triple; and if any one of the three keys
is absent, the whole session is reported absent (forcing a full join),
never partially reconstructed. -/
theorem C2_session_all_or_nothing :
    (∀ s : Store, (get_session_keys s).isSome ↔
        ((s.get .NewSKey).isSome ∧ (s.get .AppSKey).isSome ∧
         (s.get .DevAddr).isSome)) ∧
    (∀ (s : Store) (a b c : List Nat),
        get_session_keys (((s.put .AppSKey a).put .NewSKey b).put .DevAddr c)
          = some ⟨b, a, c⟩) ∧
    (∀ s : Store,
        (s.get .NewSKey = none ∨ s.get .AppSKey = none ∨
         s.get .DevAddr = none) →
        get_session_keys s = none) := by
  refine ⟨fun s => ?_, fun s a b c => ?_, fun s h => ?_⟩
  · simp only [get_session_keys, Store.get]
    cases s Key.NewSKey <;> cases s Key.AppSKey <;> cases s Key.DevAddr <;>
      simp
  · simp [get_session_keys, Store.get, Store.put]
  · simp only [get_session_keys, Store.get] at *
    rcases h with h | h | h <;> rw [h] <;>
      cases s Key.NewSKey <;> cases s Key.AppSKey <;> cases s Key.DevAddr <;>
        simp_all

/-- Witness for C2: the empty store loads as absent; a store holding
all three parts loads as exactly the written triple. -/
theorem C2_session_all_or_nothing_witness :
    get_session_keys emptyStore = none ∧
    get_session_keys (((emptyStore.put .AppSKey [1]).put .NewSKey [2]).put
        .DevAddr [3]) = some ⟨[2], [1], [3]⟩ :=
  ⟨C2_session_all_or_nothing.2.2 emptyStore (Or.inl rfl),
   C2_session_all_or_nothing.2.1 emptyStore [1] [2] [3]⟩

/-- Claim C3: for every sensor, `on()` on an already-powered sensor and
`off()` on an already-unpowered sensor return success both times when
called twice in a row, leave the sensor state unchanged, and perform
no side effect on the device (no pin toggles, no bus commands). The
system sensor implements both as trivial successes; the soil sensor
checks its power pin; the air sensor checks its `powered` flag. -/
theorem C3_on_off_idempotent :
    (SystemSensor.on = .ok () ∧ SystemSensor.off = .ok ()) ∧
    (∀ s : SoilSensorState, s.pwr_high = true →
        SoilSensor.on s = (.ok (), s, []) ∧
        SoilSensor.on (SoilSensor.on s).2.1 = (.ok (), s, [])) ∧
    (∀ s : SoilSensorState, s.pwr_high = false →
        SoilSensor.off s = (.ok (), s, []) ∧
        SoilSensor.off (SoilSensor.off s).2.1 = (.ok (), s, [])) ∧
    (∀ (s : AirSensorState) (bus : Nat → Except I2cError Unit),
        s.powered = true →
        AirSensor.on s bus = (.ok (), s, []) ∧
        AirSensor.on (AirSensor.on s bus).2.1 bus = (.ok (), s, [])) ∧
    (∀ (s : AirSensorState) (bus : Nat → Except I2cError Unit),
        s.powered = false →
        AirSensor.off s bus = (.ok (), s, []) ∧
        AirSensor.off (AirSensor.off s bus).2.1 bus = (.ok (), s, [])) := by
  refine ⟨⟨rfl, rfl⟩, fun s h => ?_, fun s h => ?_,
    fun s bus h => ?_, fun s bus h => ?_⟩ <;>
    simp [SoilSensor.on, SoilSensor.off, AirSensor.on, AirSensor.off, h]

/-- Witness for C3 at concrete states: a powered soil/air sensor under
`on()`, an unpowered one under `off()`. -/
theorem C3_on_off_idempotent_witness :
    SoilSensor.on ⟨true⟩ = (.ok (), ⟨true⟩, []) ∧
    SoilSensor.off ⟨false⟩ = (.ok (), ⟨false⟩, []) ∧
    AirSensor.on ⟨true⟩ (fun _ => .ok ()) = (.ok (), ⟨true⟩, []) ∧
    AirSensor.off ⟨false⟩ (fun _ => .ok ()) = (.ok (), ⟨false⟩, []) :=
  ⟨(C3_on_off_idempotent.2.1 ⟨true⟩ rfl).1,
   (C3_on_off_idempotent.2.2.1 ⟨false⟩ rfl).1,
   (C3_on_off_idempotent.2.2.2.1 ⟨true⟩ (fun _ => .ok ()) rfl).1,
   (C3_on_off_idempotent.2.2.2.2 ⟨false⟩ (fun _ => .ok ()) rfl).1⟩

/-- Claim C4 counterexample: an rx-complete radio outcome is NOT
classified as a success: `LoraRadio::uplink` maps `RxComplete` to
`Err(LoraRadioError::NoAck)`, which `Device::uplink` surfaces as the
no-ack soft failure. -/
theorem C4_rxcomplete_not_success :
    LoraRadio.uplink (.ok .RxComplete) = .error .NoAck ∧
    (LoraRadio.uplink (.ok .RxComplete)).isOk = false ∧
    Device.uplink (LoraRadio.uplink (.ok .RxComplete))
      = .error DeviceError.NoAck := by
  exact ⟨rfl, rfl, rfl⟩

/-- Claim C4 (amended): the Send classification: downlink-received is a
success carrying the downlink frame counter; no-ack is a soft failure
that proceeds to the next Duty cycle; rx-complete is folded into the
same no-ack soft failure (not a success) and likewise proceeds to the
next Duty cycle; session-expired returns to Auth; any other radio
error is a hard failure routed to Idle. -/
theorem C4_uplink_classification (f : Nat) :
    LoraRadio.uplink (.ok (.DownlinkReceived f)) = .ok f ∧
    Device.uplink (LoraRadio.uplink (.ok (.DownlinkReceived f))) = .ok () ∧
    nextState .Send (Device.uplink (LoraRadio.uplink (.ok .NoAck))) = .Duty ∧
    Device.uplink (LoraRadio.uplink (.ok .RxComplete)) = .error .NoAck ∧
    nextState .Send (Device.uplink (LoraRadio.uplink (.ok .RxComplete)))
      = .Duty ∧
    nextState .Send (Device.uplink (LoraRadio.uplink (.ok .SessionExpired)))
      = .Auth ∧
    nextState .Send (Device.uplink (LoraRadio.uplink (.error .err)))
      = .Idle (60 * 60) ∧
    nextState .Send (Device.uplink (.error .NoJoinAccept)) = .Idle (60 * 60) := by
  exact ⟨rfl, rfl, rfl, rfl, rfl, rfl, rfl, rfl⟩

/-- Claim C5: when every sensor probes successfully, the assembled
uplink payload is exactly the concatenation of the three fixed-size
records in order, its length equals the sum of the configured
per-sensor record sizes (18 + 4 + 11), and that sum never exceeds the
fixed buffer capacity of 33 (so no `extend_from_slice` overflow / no
panic); while a failing probe contributes no assembled payload at all. -/
theorem C5_payload_length (r0 r1 r2 : List Nat)
    (h0 : r0.length = 18) (h1 : r1.length = 4) (h2 : r2.length = 11) :
    collect_data (.ok r0) (.ok r1) (.ok r2)
      = (some (.ok (r0 ++ r1 ++ r2)), [.system, .soil, .air]) ∧
    (r0 ++ r1 ++ r2).length = 18 + 4 + 11 ∧
    18 + 4 + 11 ≤ DATA_CAPACITY ∧
    (∀ airRes, collect_data (.ok r0) (.error ()) airRes
      = (some (.error .Duty), [.system, .soil])) := by
  refine ⟨?_, ?_, by decide, fun airRes => ?_⟩
  · simp [collect_data, extendFromSlice, h0, h1, h2, DATA_CAPACITY]
  · simp [h0, h1, h2]
  · simp [collect_data, extendFromSlice, h0, DATA_CAPACITY]

/-- Witness for C5 at concrete records of the configured sizes. -/
theorem C5_payload_length_witness :
    collect_data (.ok (List.replicate 18 1)) (.ok (List.replicate 4 2))
        (.ok (List.replicate 11 3))
      = (some (.ok (List.replicate 18 1 ++ List.replicate 4 2 ++
          List.replicate 11 3)), [.system, .soil, .air]) ∧
    (List.replicate 18 1 ++ List.replicate 4 2 ++
      List.replicate 11 3).length = 18 + 4 + 11 :=
  ⟨(C5_payload_length _ _ _ (by simp) (by simp) (by simp)).1,
   (C5_payload_length (List.replicate 18 1) (List.replicate 4 2)
      (List.replicate 11 3) (by simp) (by simp) (by simp)).2.1⟩

/-- Claim C6 is contradicted by the code: when no session is persisted,
the OTAA join succeeds and the very first storage write of the fresh
session fails, `Device::auth` reaches the `todo!()` branch
(src/device/mod.rs:188) and panics — the process aborts and the
orchestrator is left with no defined transition, while the spec
requires a storage write failure to be fatal only to the current cycle.
Here the panic is the `none` value of the model. -/
theorem C6_persist_failure_panics :
    Device.auth emptyStore (.ok sessionKeysA) putFailWrite 0 = none ∧
    persist_session_keys putFailWrite sessionKeysA
      = .error (.Storage .Write) := by
  exact ⟨rfl, rfl⟩

/-- Claim C7: for air measurements temperature 23.4 °C, humidity
55.2 %, CO₂ 842 ppm, the record's value bytes are the fixed encoding
of the scaled integers (234, 110, 842): temperature as signed 16-bit
big-endian in tenths of a degree, humidity as unsigned 8-bit in
half-percent units, CO₂ as unsigned 16-bit big-endian, each preceded
by its fixed channel/type prefix bytes (0x01 0x67, 0x01 0x68,
0x01 0x65). The source scales in `f32`; at these inputs the `f32`
results (234.0 exactly and 110.39999…, truncating to 234 and 110)
coincide with the rational model used here. -/
theorem C7_air_record_encoding :
    scaleTemp (23.4 : ℚ) = 234 ∧
    scaleHum (55.2 : ℚ) = 110 ∧
    airProbeRecord (23.4 : ℚ) (55.2 : ℚ) 842
      = [0x01, 0x67] ++ i16BytesBE 234 ++ [0x01, 0x68] ++ [110] ++
        [0x01, 0x65] ++ u16BytesBE 842 ∧
    i16BytesBE 234 = [0x00, 0xEA] ∧
    u16BytesBE 842 = [0x03, 0x4A] := by
  have h1 : scaleTemp (23.4 : ℚ) = 234 := by
    norm_num [scaleTemp, castToI16, truncQ]
  have h2 : scaleHum (55.2 : ℚ) = 110 := by
    have hn : ((55.2 : ℚ) * 2).num = 552 := by norm_num
    have hd : ((55.2 : ℚ) * 2).den = 5 := by norm_num
    simp [scaleHum, castToU8, truncQ, hn, hd]
    decide
  refine ⟨h1, h2, ?_, rfl, rfl⟩
  rw [airProbeRecord, h1, h2]
  rfl

/-- Claim C8 counterexample: a Duty failure is routed to
`Idle(60 * 60)` — a 3600-second (one hour) backoff, the very same
duration as the join-retry-exhaustion backoff — not a distinct
short/medium backoff of tens of minutes. -/
theorem C8_duty_backoff_is_hour :
    nextState .Duty (.error .Duty) = .Idle (60 * 60) ∧
    nextState .Duty (.error .Duty)
      = nextState .Auth (.error .AuthJoinAttemptsExhausted) := by
  exact ⟨rfl, rfl⟩

/-- Claim C8 (amended): every failure routed to Idle — boot failures,
generic Auth failures (anything but the in-place `AuthFailed`), Duty
failures, and hard Send errors (anything but the soft `NoAck` and
`SessionExpired`) — uses one and the same 3600-second backoff as
join-retry exhaustion; the code implements no separate short/medium
backoff. -/
theorem C8_uniform_hour_backoff (e : DeviceError) :
    nextState .Boot (.error e) = .Idle (60 * 60) ∧
    (e ≠ .AuthFailed → nextState .Auth (.error e) = .Idle (60 * 60)) ∧
    nextState .Duty (.error e) = .Idle (60 * 60) ∧
    (e ≠ .NoAck → e ≠ .SessionExpired →
      nextState .Send (.error e) = .Idle (60 * 60)) := by
  cases e <;> simp [nextState]

/-- Witness for C8 at concrete errors: a generic ABP Auth failure and
a hard Send failure both back off for 3600 seconds. -/
theorem C8_uniform_hour_backoff_witness :
    nextState .Auth (.error .Auth) = .Idle (60 * 60) ∧
    nextState .Send (.error .Send) = .Idle (60 * 60) :=
  ⟨(C8_uniform_hour_backoff .Auth).2.1 (by decide),
   (C8_uniform_hour_backoff .Send).2.2.2 (by decide) (by decide)⟩

/-- Claim C9: during the Duty phase the sensors are probed in the fixed
order system, soil, air, and the first probe failure aborts the phase
immediately: `collect_data` returns `DeviceError::Duty`, sensors later
in the order are not probed, and the Duty error routes the loop to
Idle — not to Send — so no partial payload is handed to Send. -/
theorem C9_duty_abort_on_first_failure (r0 r1 : List Nat)
    (h0 : r0.length = 18) (h1 : r1.length = 4) :
    (∀ soilRes airRes, collect_data (.error ()) soilRes airRes
        = (some (.error .Duty), [.system])) ∧
    (∀ airRes, collect_data (.ok r0) (.error ()) airRes
        = (some (.error .Duty), [.system, .soil])) ∧
    collect_data (.ok r0) (.ok r1) (.error ())
      = (some (.error .Duty), [.system, .soil, .air]) ∧
    nextState .Duty (.error .Duty) = .Idle (60 * 60) ∧
    nextState .Duty (.error .Duty) ≠ .Send := by
  refine ⟨fun soilRes airRes => ?_, fun airRes => ?_, ?_, rfl, by decide⟩
  · simp [collect_data]
  · simp [collect_data, extendFromSlice, h0, DATA_CAPACITY]
  · simp [collect_data, extendFromSlice, h0, h1, DATA_CAPACITY]

/-- Witness for C9 at concrete records: a failing soil probe stops the
phase after system and soil. -/
theorem C9_duty_abort_on_first_failure_witness :
    collect_data (.ok (List.replicate 18 1)) (.error ()) (.ok [])
      = (some (.error .Duty), [.system, .soil]) ∧
    collect_data (.error ()) (.ok []) (.ok [])
      = (some (.error .Duty), [.system]) :=
  ⟨(C9_duty_abort_on_first_failure (List.replicate 18 1)
      (List.replicate 4 2) (by simp) (by simp)).2.1 (.ok []),
   (C9_duty_abort_on_first_failure (List.replicate 18 1)
      (List.replicate 4 2) (by simp) (by simp)).1 (.ok []) (.ok [])⟩

/-- Claim C10: a failed lightweight ABP rejoin (a persisted session is
present and the `join` call fails) leaves `auth_attempt` unchanged and
produces the generic `DeviceError::Auth`, which `Device::run` routes
straight to `Idle(60 * 60)` — never back to Auth in place. The bounded
in-place retry counter is touched only on the OTAA branch, i.e. only
when no session is persisted. -/
theorem C10_abp_failure_no_retry (s : Store) (ks : SessionKeys)
    (hs : get_session_keys s = some ks) (e : LoraRadioError)
    (put : Key → List Nat → Except FlashStorageError Unit) (a : Nat) :
    Device.auth s (.error e) put a = some (.error .Auth, a) ∧
    nextState .Auth (.error .Auth) = .Idle (60 * 60) ∧
    nextState .Auth (.error .Auth) ≠ .Auth := by
  refine ⟨?_, rfl, by decide⟩
  simp [Device.auth, hs]

/-- A store holding all three session parts, for the C10 witness. -/
def fullStore : Store :=
  ((emptyStore.put .AppSKey sessionKeysA.appskey).put .NewSKey
    sessionKeysA.newskey).put .DevAddr sessionKeysA.devaddr

/-- Witness for C10: with a full persisted session and a failing
rejoin, the counter stays at 7 and the error is the generic one. -/
theorem C10_abp_failure_no_retry_witness :
    Device.auth fullStore (.error .NoJoinAccept) putOk 7
      = some (.error .Auth, 7) ∧
    nextState .Auth (.error .Auth) = .Idle (60 * 60) :=
  ⟨(C10_abp_failure_no_retry fullStore sessionKeysA rfl .NoJoinAccept
      putOk 7).1,
   (C10_abp_failure_no_retry fullStore sessionKeysA rfl .NoJoinAccept
      putOk 7).2.1⟩
